import Mathlib

/-!
Shallow embedding of src/monitor.py (bambu-monitor): the status-tracking and
idle-shutdown decision engine.

Modelling choices:
* Temperatures and timestamps are Python floats in the source, but every
  threshold they are compared against is an exact integer (40.0, 180.0,
  15*60 seconds, 5*60 seconds) and the code only ever compares these
  quantities, never computes with them; they are embedded as integers.
* Timestamps (datetime.now values) count seconds; each telemetry arrival is
  processed at a single instant `now`, standing for the several
  datetime.now() calls made while one arrival is handled.
* Telemetry fields that can be Python None are Option values.
* Side effects (log lines, the mijiaAPI power-off call, the notification
  e-mail) are recorded as an explicit trace of actions; an exception raised by
  the actuator or the mailer is an error value threaded through each step and
  caught, as in PrinterMonitor.on_message, at the per-arrival entry point.
-/

namespace BambuMonitor

/-- The slice of `PrinterStatus` that `StatusTracker.update` reads: five
telemetry fields, each optionally present (`none` stands for Python `None`,
meaning the field was not reported in this partial snapshot). -/
structure PrinterStatus where
  print_stage : Option String
  bed_temp : Option ℤ
  nozzle_temp : Option ℤ
  bed_target_temp : Option ℤ
  nozzle_target_temp : Option ℤ
deriving DecidableEq

/-- The class-level mutable state of `StatusTracker` (src/monitor.py lines
80-89): merged telemetry fields plus the four per-condition clocks and the
time of the last telemetry arrival.  In the source, `bed_temp` and
`nozzle_temp` default to `0.0` (not `None`), while the two target
temperatures and the print stage default to `None`. -/
structure TrackerState where
  print_stage : Option String
  bed_temp : ℤ
  nozzle_temp : ℤ
  bed_target_temp : Option ℤ
  nozzle_target_temp : Option ℤ
  threshold_since_idle : ℤ
  threshold_start_bed : ℤ
  threshold_start_bed_target : ℤ
  threshold_start_nozzle_target : ℤ
  status_time : ℤ
deriving DecidableEq

/-- `StatusTracker.BED_THRESHOLD_TEMP = 40.0`. -/
def BED_THRESHOLD_TEMP : ℤ := 40

/-- `StatusTracker.SHUTDOWN_DELAY_SECONDS = 15 * 60`. -/
def SHUTDOWN_DELAY_SECONDS : ℤ := 15 * 60

/-- `StatusTracker.MAX_STATUS_INTERVAL = 5` minutes, converted to seconds as
`timedelta(minutes=5)` is in the staleness comparison. -/
def MAX_STATUS_INTERVAL_SECONDS : ℤ := 5 * 60

/-- The `180.0` literal guarding the power-off in `shutdown_printer`. -/
def NOZZLE_COOL_TEMP : ℤ := 180

/-- `StatusTracker.reset_tracking` (lines 91-103): clears the merged fields to
their defaults and stamps every clock with the current time. -/
def reset_tracking (now : ℤ) : TrackerState :=
  ⟨none, 0, 0, none, none, now, now, now, now, now⟩

/-- Merging one optional incoming field into an optional stored field: the
guarded assignment pattern `if status.x is not None: cls.x = status.x`. -/
def mergeField {α : Type} (incoming stored : Option α) : Option α :=
  match incoming with
  | some v => some v
  | none => stored

/-- Line 110-111: if the previous arrival is more than MAX_STATUS_INTERVAL
minutes old, reset all tracking before merging. -/
def applyStalenessReset (now : ℤ) (s : TrackerState) : TrackerState :=
  if now - s.status_time > MAX_STATUS_INTERVAL_SECONDS then reset_tracking now else s

/-- Line 112: `StatusTracker.status_time = datetime.now()`, unconditionally. -/
def stampStatusTime (now : ℤ) (s : TrackerState) : TrackerState :=
  { s with status_time := now }

/-- Lines 114-115: merge the print stage when reported. -/
def mergeStage (p : PrinterStatus) (s : TrackerState) : TrackerState :=
  { s with print_stage := mergeField p.print_stage s.print_stage }

/-- Lines 116-117: `if not print_stage == "IDLE"` re-arm the idle clock (in
Python, `None == "IDLE"` is False, so an unknown stage also re-arms). -/
def armIdleClock (now : ℤ) (s : TrackerState) : TrackerState :=
  if ¬ s.print_stage = some "IDLE" then { s with threshold_since_idle := now } else s

/-- Lines 119-120: merge the bed temperature when reported. -/
def mergeBed (p : PrinterStatus) (s : TrackerState) : TrackerState :=
  { s with bed_temp := p.bed_temp.getD s.bed_temp }

/-- Lines 121-122: a bed hotter than BED_THRESHOLD_TEMP re-arms the bed clock. -/
def armBedClock (now : ℤ) (s : TrackerState) : TrackerState :=
  if s.bed_temp > BED_THRESHOLD_TEMP then { s with threshold_start_bed := now } else s

/-- Lines 124-125: merge the nozzle temperature when reported. -/
def mergeNozzle (p : PrinterStatus) (s : TrackerState) : TrackerState :=
  { s with nozzle_temp := p.nozzle_temp.getD s.nozzle_temp }

/-- Lines 127-128: merge the bed target temperature when reported. -/
def mergeBedTarget (p : PrinterStatus) (s : TrackerState) : TrackerState :=
  { s with bed_target_temp := mergeField p.bed_target_temp s.bed_target_temp }

/-- Lines 129-130: `if not bed_target_temp == 0` re-arm the bed-target clock
(again `None == 0` is False, so an unknown target keeps re-arming). -/
def armBedTargetClock (now : ℤ) (s : TrackerState) : TrackerState :=
  if ¬ s.bed_target_temp = some 0 then { s with threshold_start_bed_target := now } else s

/-- Lines 132-133: merge the nozzle target temperature when reported. -/
def mergeNozzleTarget (p : PrinterStatus) (s : TrackerState) : TrackerState :=
  { s with nozzle_target_temp := mergeField p.nozzle_target_temp s.nozzle_target_temp }

/-- Lines 134-135: `if not nozzle_target_temp == 0` re-arm the nozzle-target
clock. -/
def armNozzleTargetClock (now : ℤ) (s : TrackerState) : TrackerState :=
  if ¬ s.nozzle_target_temp = some 0 then { s with threshold_start_nozzle_target := now } else s

/-- `StatusTracker.update` (lines 105-135): staleness check, stamp of
`status_time`, then the five merge-and-re-arm blocks in source order. -/
def update (now : ℤ) (p : PrinterStatus) (s : TrackerState) : TrackerState :=
  armNozzleTargetClock now (mergeNozzleTarget p
    (armBedTargetClock now (mergeBedTarget p
      (mergeNozzle p
        (armBedClock now (mergeBed p
          (armIdleClock now (mergeStage p
            (stampStatusTime now (applyStalenessReset now s))))))))))

/-- Observable side effects of one processed arrival, in the order the source
performs them. -/
inductive Action where
  | logState
  | logWait
  | logShutdown (reason : String)
  | resetDone
  | actuatorCall
  | notifyCall (reason : String)
  | logError (msg : String)
deriving DecidableEq

/-- Failure injection for the two blocking external calls: `some msg` makes
the corresponding call raise. -/
structure Effects where
  actuatorErr : Option String
  notifyErr : Option String
deriving DecidableEq

/-- Both external calls succeed. -/
def noErr : Effects := ⟨none, none⟩

/-- Result of one step: the tracker state, the actions performed, and the
exception (if any) propagating out of the step. -/
structure StepResult where
  state : TrackerState
  actions : List Action
  err : Option String
deriving DecidableEq

/-- `shutdown_printer` (lines 29-40): while the tracked nozzle temperature is
above 180 the routine only logs and returns; otherwise it logs the decision,
resets the tracking state, invokes the mijiaAPI power-off, and sends the
notification e-mail — in that source order.  A failure of the actuator skips
the notification; a failure of either call propagates to the caller. -/
def shutdown_printer (eff : Effects) (now : ℤ) (reason : String) (s : TrackerState) : StepResult :=
  if s.nozzle_temp > NOZZLE_COOL_TEMP then
    ⟨s, [Action.logWait], none⟩
  else
    match eff.actuatorErr with
    | some e =>
        ⟨reset_tracking now, [Action.logShutdown reason, Action.resetDone, Action.actuatorCall],
          some e⟩
    | none =>
        match eff.notifyErr with
        | some e =>
            ⟨reset_tracking now,
              [Action.logShutdown reason, Action.resetDone, Action.actuatorCall,
                Action.notifyCall reason], some e⟩
        | none =>
            ⟨reset_tracking now,
              [Action.logShutdown reason, Action.resetDone, Action.actuatorCall,
                Action.notifyCall reason], none⟩

/-- `StatusTracker.run_shutdown_strategy` (lines 137-153): log the aggregate
state, then test the four shutdown conditions in source order, invoking
`shutdown_printer` with the matching reason for the first that holds. -/
def run_shutdown_strategy (eff : Effects) (now : ℤ) (s : TrackerState) : StepResult :=
  if s.bed_temp < BED_THRESHOLD_TEMP ∧ now - s.threshold_start_bed ≥ SHUTDOWN_DELAY_SECONDS then
    let r := shutdown_printer eff now "bed_temp<40.0" s
    ⟨r.state, Action.logState :: r.actions, r.err⟩
  else if s.bed_target_temp = some 0 ∧
      now - s.threshold_start_bed_target ≥ SHUTDOWN_DELAY_SECONDS then
    let r := shutdown_printer eff now "bed_target_temp=0" s
    ⟨r.state, Action.logState :: r.actions, r.err⟩
  else if s.nozzle_target_temp = some 0 ∧
      now - s.threshold_start_nozzle_target ≥ SHUTDOWN_DELAY_SECONDS then
    let r := shutdown_printer eff now "nozzle_target_temp=0" s
    ⟨r.state, Action.logState :: r.actions, r.err⟩
  else if s.print_stage = some "IDLE" ∧
      now - s.threshold_since_idle ≥ SHUTDOWN_DELAY_SECONDS then
    let r := shutdown_printer eff now "IDLE state" s
    ⟨r.state, Action.logState :: r.actions, r.err⟩
  else
    ⟨s, [Action.logState], none⟩

/-- `PrinterMonitor.on_message` (lines 218-234), restricted to the tracked
state: runs `StatusTracker.update` then `run_shutdown_strategy` inside a
`try`, so any exception from the update-and-shutdown path is logged and does
not propagate. -/
def on_message (eff : Effects) (now : ℤ) (p : PrinterStatus) (s : TrackerState) : StepResult :=
  let r := run_shutdown_strategy eff now (update now p s)
  match r.err with
  | some e => ⟨r.state, r.actions ++ [Action.logError e], none⟩
  | none => ⟨r.state, r.actions, none⟩

/-- Serial processing of a list of telemetry arrivals `(time, snapshot)`,
as the MQTT callback delivers them; returns the final state and the
concatenated action trace. -/
def runTrace (eff : Effects) : TrackerState → List (ℤ × PrinterStatus) → TrackerState × List Action
  | s, [] => (s, [])
  | s, (t, p) :: rest =>
      let r := on_message eff t p s
      let r2 := runTrace eff r.state rest
      (r2.1, r.actions ++ r2.2)

/-- The merged print stage observed at each arrival of a trace (the value of
`StatusTracker.print_stage` right after the merge of that arrival). -/
def stagesAlong (eff : Effects) : TrackerState → List (ℤ × PrinterStatus) → List (Option String)
  | _, [] => []
  | s, (t, p) :: rest =>
      (update t p s).print_stage :: stagesAlong eff (on_message eff t p s).state rest

/-- The four per-condition clocks of the tracker, as a tuple. -/
def clocks4 (s : TrackerState) : ℤ × ℤ × ℤ × ℤ :=
  (s.threshold_since_idle, s.threshold_start_bed, s.threshold_start_bed_target,
    s.threshold_start_nozzle_target)

/-- All four per-condition clocks are at least `t`. -/
def clocksAtLeast (t : ℤ) (s : TrackerState) : Prop :=
  t ≤ s.threshold_since_idle ∧ t ≤ s.threshold_start_bed ∧
  t ≤ s.threshold_start_bed_target ∧ t ≤ s.threshold_start_nozzle_target

/-- Number of actuator power-off invocations in an action trace. -/
def countActuator : List Action → ℕ
  | [] => 0
  | a :: l => (if a = Action.actuatorCall then 1 else 0) + countActuator l

/-- A snapshot reporting nothing at all. -/
def pEmpty : PrinterStatus := ⟨none, none, none, none, none⟩

/-- A snapshot of an ongoing print with a cold bed (stage PRINTING, bed 20). -/
def pPrinting : PrinterStatus := ⟨some "PRINTING", some 20, none, none, none⟩

/-- A snapshot with stage IDLE, bed 45, nozzle 90 and both targets at 50. -/
def pIdle90 : PrinterStatus := ⟨some "IDLE", some 45, some 90, some 50, some 50⟩

/-- A snapshot of an idle, cooling device whose nozzle is still at 200. -/
def pHotNozzle : PrinterStatus := ⟨some "IDLE", some 30, some 200, some 0, some 0⟩

/-- An idle tracker state: stage IDLE, bed 30, nozzle 50, both targets 0, all
four clocks at 0, previous arrival at 700. -/
def sIdleCool : TrackerState := ⟨some "IDLE", 30, 50, some 0, some 0, 0, 0, 0, 0, 700⟩

/-- Like `sIdleCool` but with the nozzle still at 200. -/
def sIdleHot : TrackerState := ⟨some "IDLE", 30, 200, some 0, some 0, 0, 0, 0, 0, 700⟩

/-- Like `sIdleCool` but with the nozzle at 90. -/
def sIdle90 : TrackerState := ⟨some "IDLE", 30, 90, some 0, some 0, 0, 0, 0, 0, 700⟩

/-! Small facts about the individual merge and re-arm steps. -/

theorem mergeField_none {α : Type} (st : Option α) : mergeField none st = st := rfl

theorem mergeField_some {α : Type} (v : α) (st : Option α) :
    mergeField (some v) st = some v := rfl

theorem mergeField_isSome {α : Type} (i st : Option α) (h : st.isSome) :
    (mergeField i st).isSome := by
  cases i <;> simp [mergeField, h]

theorem applyStalenessReset_cases (now : ℤ) (s : TrackerState) :
    applyStalenessReset now s = s ∨ applyStalenessReset now s = reset_tracking now := by
  unfold applyStalenessReset
  split
  · exact Or.inr rfl
  · exact Or.inl rfl

@[simp] theorem armIdle_stage (now : ℤ) (s : TrackerState) :
    (armIdleClock now s).print_stage = s.print_stage := by
  unfold armIdleClock; split <;> rfl

@[simp] theorem armIdle_bed (now : ℤ) (s : TrackerState) :
    (armIdleClock now s).bed_temp = s.bed_temp := by
  unfold armIdleClock; split <;> rfl

@[simp] theorem armIdle_nozzle (now : ℤ) (s : TrackerState) :
    (armIdleClock now s).nozzle_temp = s.nozzle_temp := by
  unfold armIdleClock; split <;> rfl

@[simp] theorem armIdle_bt (now : ℤ) (s : TrackerState) :
    (armIdleClock now s).bed_target_temp = s.bed_target_temp := by
  unfold armIdleClock; split <;> rfl

@[simp] theorem armIdle_nt (now : ℤ) (s : TrackerState) :
    (armIdleClock now s).nozzle_target_temp = s.nozzle_target_temp := by
  unfold armIdleClock; split <;> rfl

@[simp] theorem armIdle_cBed (now : ℤ) (s : TrackerState) :
    (armIdleClock now s).threshold_start_bed = s.threshold_start_bed := by
  unfold armIdleClock; split <;> rfl

@[simp] theorem armIdle_cBT (now : ℤ) (s : TrackerState) :
    (armIdleClock now s).threshold_start_bed_target = s.threshold_start_bed_target := by
  unfold armIdleClock; split <;> rfl

@[simp] theorem armIdle_cNT (now : ℤ) (s : TrackerState) :
    (armIdleClock now s).threshold_start_nozzle_target = s.threshold_start_nozzle_target := by
  unfold armIdleClock; split <;> rfl

@[simp] theorem armIdle_time (now : ℤ) (s : TrackerState) :
    (armIdleClock now s).status_time = s.status_time := by
  unfold armIdleClock; split <;> rfl

theorem armIdle_cIdle_cases (now : ℤ) (s : TrackerState) :
    (armIdleClock now s).threshold_since_idle = s.threshold_since_idle ∨
    (armIdleClock now s).threshold_since_idle = now := by
  unfold armIdleClock; split
  · exact Or.inr rfl
  · exact Or.inl rfl

@[simp] theorem armBed_stage (now : ℤ) (s : TrackerState) :
    (armBedClock now s).print_stage = s.print_stage := by
  unfold armBedClock; split <;> rfl

@[simp] theorem armBed_bed (now : ℤ) (s : TrackerState) :
    (armBedClock now s).bed_temp = s.bed_temp := by
  unfold armBedClock; split <;> rfl

@[simp] theorem armBed_nozzle (now : ℤ) (s : TrackerState) :
    (armBedClock now s).nozzle_temp = s.nozzle_temp := by
  unfold armBedClock; split <;> rfl

@[simp] theorem armBed_bt (now : ℤ) (s : TrackerState) :
    (armBedClock now s).bed_target_temp = s.bed_target_temp := by
  unfold armBedClock; split <;> rfl

@[simp] theorem armBed_nt (now : ℤ) (s : TrackerState) :
    (armBedClock now s).nozzle_target_temp = s.nozzle_target_temp := by
  unfold armBedClock; split <;> rfl

@[simp] theorem armBed_cIdle (now : ℤ) (s : TrackerState) :
    (armBedClock now s).threshold_since_idle = s.threshold_since_idle := by
  unfold armBedClock; split <;> rfl

@[simp] theorem armBed_cBT (now : ℤ) (s : TrackerState) :
    (armBedClock now s).threshold_start_bed_target = s.threshold_start_bed_target := by
  unfold armBedClock; split <;> rfl

@[simp] theorem armBed_cNT (now : ℤ) (s : TrackerState) :
    (armBedClock now s).threshold_start_nozzle_target = s.threshold_start_nozzle_target := by
  unfold armBedClock; split <;> rfl

@[simp] theorem armBed_time (now : ℤ) (s : TrackerState) :
    (armBedClock now s).status_time = s.status_time := by
  unfold armBedClock; split <;> rfl

theorem armBed_cBed_cases (now : ℤ) (s : TrackerState) :
    (armBedClock now s).threshold_start_bed = s.threshold_start_bed ∨
    (armBedClock now s).threshold_start_bed = now := by
  unfold armBedClock; split
  · exact Or.inr rfl
  · exact Or.inl rfl

@[simp] theorem armBT_stage (now : ℤ) (s : TrackerState) :
    (armBedTargetClock now s).print_stage = s.print_stage := by
  unfold armBedTargetClock; split <;> rfl

@[simp] theorem armBT_bed (now : ℤ) (s : TrackerState) :
    (armBedTargetClock now s).bed_temp = s.bed_temp := by
  unfold armBedTargetClock; split <;> rfl

@[simp] theorem armBT_nozzle (now : ℤ) (s : TrackerState) :
    (armBedTargetClock now s).nozzle_temp = s.nozzle_temp := by
  unfold armBedTargetClock; split <;> rfl

@[simp] theorem armBT_bt (now : ℤ) (s : TrackerState) :
    (armBedTargetClock now s).bed_target_temp = s.bed_target_temp := by
  unfold armBedTargetClock; split <;> rfl

@[simp] theorem armBT_nt (now : ℤ) (s : TrackerState) :
    (armBedTargetClock now s).nozzle_target_temp = s.nozzle_target_temp := by
  unfold armBedTargetClock; split <;> rfl

@[simp] theorem armBT_cIdle (now : ℤ) (s : TrackerState) :
    (armBedTargetClock now s).threshold_since_idle = s.threshold_since_idle := by
  unfold armBedTargetClock; split <;> rfl

@[simp] theorem armBT_cBed (now : ℤ) (s : TrackerState) :
    (armBedTargetClock now s).threshold_start_bed = s.threshold_start_bed := by
  unfold armBedTargetClock; split <;> rfl

@[simp] theorem armBT_cNT (now : ℤ) (s : TrackerState) :
    (armBedTargetClock now s).threshold_start_nozzle_target =
    s.threshold_start_nozzle_target := by
  unfold armBedTargetClock; split <;> rfl

@[simp] theorem armBT_time (now : ℤ) (s : TrackerState) :
    (armBedTargetClock now s).status_time = s.status_time := by
  unfold armBedTargetClock; split <;> rfl

theorem armBT_cBT_cases (now : ℤ) (s : TrackerState) :
    (armBedTargetClock now s).threshold_start_bed_target = s.threshold_start_bed_target ∨
    (armBedTargetClock now s).threshold_start_bed_target = now := by
  unfold armBedTargetClock; split
  · exact Or.inr rfl
  · exact Or.inl rfl

theorem armBT_spec (now : ℤ) (s : TrackerState)
    (h : ¬ (armBedTargetClock now s).bed_target_temp = some 0) :
    (armBedTargetClock now s).threshold_start_bed_target = now := by
  rw [armBT_bt] at h
  unfold armBedTargetClock
  rw [if_pos h]

@[simp] theorem armNT_stage (now : ℤ) (s : TrackerState) :
    (armNozzleTargetClock now s).print_stage = s.print_stage := by
  unfold armNozzleTargetClock; split <;> rfl

@[simp] theorem armNT_bed (now : ℤ) (s : TrackerState) :
    (armNozzleTargetClock now s).bed_temp = s.bed_temp := by
  unfold armNozzleTargetClock; split <;> rfl

@[simp] theorem armNT_nozzle (now : ℤ) (s : TrackerState) :
    (armNozzleTargetClock now s).nozzle_temp = s.nozzle_temp := by
  unfold armNozzleTargetClock; split <;> rfl

@[simp] theorem armNT_bt (now : ℤ) (s : TrackerState) :
    (armNozzleTargetClock now s).bed_target_temp = s.bed_target_temp := by
  unfold armNozzleTargetClock; split <;> rfl

@[simp] theorem armNT_nt (now : ℤ) (s : TrackerState) :
    (armNozzleTargetClock now s).nozzle_target_temp = s.nozzle_target_temp := by
  unfold armNozzleTargetClock; split <;> rfl

@[simp] theorem armNT_cIdle (now : ℤ) (s : TrackerState) :
    (armNozzleTargetClock now s).threshold_since_idle = s.threshold_since_idle := by
  unfold armNozzleTargetClock; split <;> rfl

@[simp] theorem armNT_cBed (now : ℤ) (s : TrackerState) :
    (armNozzleTargetClock now s).threshold_start_bed = s.threshold_start_bed := by
  unfold armNozzleTargetClock; split <;> rfl

@[simp] theorem armNT_cBT (now : ℤ) (s : TrackerState) :
    (armNozzleTargetClock now s).threshold_start_bed_target =
    s.threshold_start_bed_target := by
  unfold armNozzleTargetClock; split <;> rfl

@[simp] theorem armNT_time (now : ℤ) (s : TrackerState) :
    (armNozzleTargetClock now s).status_time = s.status_time := by
  unfold armNozzleTargetClock; split <;> rfl

theorem armNT_cNT_cases (now : ℤ) (s : TrackerState) :
    (armNozzleTargetClock now s).threshold_start_nozzle_target =
      s.threshold_start_nozzle_target ∨
    (armNozzleTargetClock now s).threshold_start_nozzle_target = now := by
  unfold armNozzleTargetClock; split
  · exact Or.inr rfl
  · exact Or.inl rfl


/-! Characterizations of `update`, one tracked field at a time. -/

theorem update_stage (now : ℤ) (p : PrinterStatus) (s : TrackerState) :
    (update now p s).print_stage =
    mergeField p.print_stage (applyStalenessReset now s).print_stage := by
  simp only [update, armNT_stage, mergeNozzleTarget, armBT_stage, mergeBedTarget,
    mergeNozzle, armBed_stage, mergeBed, armIdle_stage, mergeStage, stampStatusTime]

theorem update_bed (now : ℤ) (p : PrinterStatus) (s : TrackerState) :
    (update now p s).bed_temp =
    p.bed_temp.getD (applyStalenessReset now s).bed_temp := by
  simp only [update, armNT_bed, mergeNozzleTarget, armBT_bed, mergeBedTarget,
    mergeNozzle, armBed_bed, mergeBed, armIdle_bed, mergeStage, stampStatusTime]

theorem update_nozzle (now : ℤ) (p : PrinterStatus) (s : TrackerState) :
    (update now p s).nozzle_temp =
    p.nozzle_temp.getD (applyStalenessReset now s).nozzle_temp := by
  simp only [update, armNT_nozzle, mergeNozzleTarget, armBT_nozzle, mergeBedTarget,
    mergeNozzle, armBed_nozzle, mergeBed, armIdle_nozzle, mergeStage, stampStatusTime]

theorem update_bt (now : ℤ) (p : PrinterStatus) (s : TrackerState) :
    (update now p s).bed_target_temp =
    mergeField p.bed_target_temp (applyStalenessReset now s).bed_target_temp := by
  simp only [update, armNT_bt, mergeNozzleTarget, armBT_bt, mergeBedTarget,
    mergeNozzle, armBed_bt, mergeBed, armIdle_bt, mergeStage, stampStatusTime]

theorem update_nt (now : ℤ) (p : PrinterStatus) (s : TrackerState) :
    (update now p s).nozzle_target_temp =
    mergeField p.nozzle_target_temp (applyStalenessReset now s).nozzle_target_temp := by
  simp only [update, armNT_nt, mergeNozzleTarget, armBT_nt, mergeBedTarget,
    mergeNozzle, armBed_nt, mergeBed, armIdle_nt, mergeStage, stampStatusTime]

theorem update_time (now : ℤ) (p : PrinterStatus) (s : TrackerState) :
    (update now p s).status_time = now := by
  simp only [update, armNT_time, mergeNozzleTarget, armBT_time, mergeBedTarget,
    mergeNozzle, armBed_time, mergeBed, armIdle_time, mergeStage, stampStatusTime]

theorem update_bt_clock_arm (now : ℤ) (p : PrinterStatus) (s : TrackerState)
    (h : ¬ (update now p s).bed_target_temp = some 0) :
    (update now p s).threshold_start_bed_target = now := by
  simp only [update, armNT_bt, mergeNozzleTarget] at h
  simp only [update, armNT_cBT, mergeNozzleTarget]
  exact armBT_spec _ _ h

theorem update_cIdle_cases (now : ℤ) (p : PrinterStatus) (s : TrackerState) :
    (update now p s).threshold_since_idle = s.threshold_since_idle ∨
    (update now p s).threshold_since_idle = now := by
  simp only [update, armNT_cIdle, mergeNozzleTarget, armBT_cIdle, mergeBedTarget,
    mergeNozzle, armBed_cIdle, mergeBed]
  rcases armIdle_cIdle_cases now
      (mergeStage p (stampStatusTime now (applyStalenessReset now s))) with h | h <;> rw [h]
  · simp only [mergeStage, stampStatusTime]
    rcases applyStalenessReset_cases now s with h2 | h2 <;> rw [h2]
    · exact Or.inl rfl
    · exact Or.inr rfl
  · exact Or.inr rfl

theorem update_cBed_cases (now : ℤ) (p : PrinterStatus) (s : TrackerState) :
    (update now p s).threshold_start_bed = s.threshold_start_bed ∨
    (update now p s).threshold_start_bed = now := by
  simp only [update, armNT_cBed, mergeNozzleTarget, armBT_cBed, mergeBedTarget,
    mergeNozzle]
  rcases armBed_cBed_cases now
      (mergeBed p (armIdleClock now (mergeStage p
        (stampStatusTime now (applyStalenessReset now s))))) with h | h <;> rw [h]
  · simp only [mergeBed, armIdle_cBed, mergeStage, stampStatusTime]
    rcases applyStalenessReset_cases now s with h2 | h2 <;> rw [h2]
    · exact Or.inl rfl
    · exact Or.inr rfl
  · exact Or.inr rfl

theorem update_cBT_cases (now : ℤ) (p : PrinterStatus) (s : TrackerState) :
    (update now p s).threshold_start_bed_target = s.threshold_start_bed_target ∨
    (update now p s).threshold_start_bed_target = now := by
  simp only [update, armNT_cBT, mergeNozzleTarget]
  rcases armBT_cBT_cases now
      (mergeBedTarget p (mergeNozzle p (armBedClock now (mergeBed p
        (armIdleClock now (mergeStage p
          (stampStatusTime now (applyStalenessReset now s)))))))) with h | h <;> rw [h]
  · simp only [mergeBedTarget, mergeNozzle, armBed_cBT, mergeBed, armIdle_cBT,
      mergeStage, stampStatusTime]
    rcases applyStalenessReset_cases now s with h2 | h2 <;> rw [h2]
    · exact Or.inl rfl
    · exact Or.inr rfl
  · exact Or.inr rfl

theorem update_cNT_cases (now : ℤ) (p : PrinterStatus) (s : TrackerState) :
    (update now p s).threshold_start_nozzle_target = s.threshold_start_nozzle_target ∨
    (update now p s).threshold_start_nozzle_target = now := by
  rcases armNT_cNT_cases now
      (mergeNozzleTarget p (armBedTargetClock now (mergeBedTarget p (mergeNozzle p
        (armBedClock now (mergeBed p (armIdleClock now (mergeStage p
          (stampStatusTime now (applyStalenessReset now s)))))))))) with h | h
  · rw [update, h]
    simp only [mergeNozzleTarget, armBT_cNT, mergeBedTarget, mergeNozzle, armBed_cNT,
      mergeBed, armIdle_cNT, mergeStage, stampStatusTime]
    rcases applyStalenessReset_cases now s with h2 | h2 <;> rw [h2]
    · exact Or.inl rfl
    · exact Or.inr rfl
  · rw [update, h]
    exact Or.inr rfl

/-! Facts about `shutdown_printer` and action counting. -/

theorem countActuator_append (l1 l2 : List Action) :
    countActuator (l1 ++ l2) = countActuator l1 + countActuator l2 := by
  induction l1 with
  | nil => simp [countActuator]
  | cons a l ih => simp [countActuator, ih, Nat.add_assoc]

theorem countActuator_pos (l : List Action) (h : Action.actuatorCall ∈ l) :
    1 ≤ countActuator l := by
  induction l with
  | nil => cases h
  | cons a l ih =>
      rcases List.mem_cons.mp h with h1 | h1
      · simp [countActuator, h1.symm]
      · have := ih h1
        simp only [countActuator]
        omega

theorem sp_actuator_mem (eff : Effects) (now : ℤ) (reason : String) (s : TrackerState)
    (h : ¬ s.nozzle_temp > NOZZLE_COOL_TEMP) :
    Action.actuatorCall ∈ (shutdown_printer eff now reason s).actions := by
  unfold shutdown_printer
  cases hA : eff.actuatorErr <;> cases hN : eff.notifyErr <;> rw [if_neg h] <;> simp

theorem sp_state_cold (eff : Effects) (now : ℤ) (reason : String) (s : TrackerState)
    (h : ¬ s.nozzle_temp > NOZZLE_COOL_TEMP) :
    (shutdown_printer eff now reason s).state = reset_tracking now := by
  unfold shutdown_printer
  cases hA : eff.actuatorErr <;> cases hN : eff.notifyErr <;> rw [if_neg h]

theorem sp_hot (eff : Effects) (now : ℤ) (reason : String) (s : TrackerState)
    (h : s.nozzle_temp > NOZZLE_COOL_TEMP) :
    shutdown_printer eff now reason s = ⟨s, [Action.logWait], none⟩ := by
  unfold shutdown_printer
  rw [if_pos h]

theorem sp_state_cases (eff : Effects) (now : ℤ) (reason : String) (s : TrackerState) :
    (shutdown_printer eff now reason s).state = s ∨
    (shutdown_printer eff now reason s).state = reset_tracking now := by
  unfold shutdown_printer
  cases hA : eff.actuatorErr <;> cases hN : eff.notifyErr <;> split <;> simp

theorem sp_count_le (eff : Effects) (now : ℤ) (reason : String) (s : TrackerState) :
    countActuator (shutdown_printer eff now reason s).actions ≤ 1 := by
  unfold shutdown_printer
  cases hA : eff.actuatorErr <;> cases hN : eff.notifyErr <;> split <;>
    simp [countActuator]

theorem sp_log_reason (eff : Effects) (now : ℤ) (r r0 : String) (s : TrackerState)
    (h : Action.logShutdown r ∈ (shutdown_printer eff now r0 s).actions) : r = r0 := by
  unfold shutdown_printer at h
  rcases hA : eff.actuatorErr with _ | e <;> rcases hN : eff.notifyErr with _ | e2 <;>
    rw [hA] at h <;> (try rw [hN] at h) <;> revert h <;> split <;> intro h <;> simp_all

theorem sp_state_of_actuator (eff : Effects) (now : ℤ) (reason : String) (s : TrackerState)
    (h : Action.actuatorCall ∈ (shutdown_printer eff now reason s).actions) :
    (shutdown_printer eff now reason s).state = reset_tracking now := by
  unfold shutdown_printer at *
  cases hA : eff.actuatorErr <;> cases hN : eff.notifyErr <;> rw [hA] at h <;>
    revert h <;> split <;> intro h <;> simp_all
theorem strategy_no_fire (eff : Effects) (now : ℤ) (s : TrackerState)
    (h1 : now - s.threshold_start_bed < SHUTDOWN_DELAY_SECONDS)
    (h2 : now - s.threshold_start_bed_target < SHUTDOWN_DELAY_SECONDS)
    (h3 : now - s.threshold_start_nozzle_target < SHUTDOWN_DELAY_SECONDS)
    (h4 : now - s.threshold_since_idle < SHUTDOWN_DELAY_SECONDS) :
    run_shutdown_strategy eff now s = ⟨s, [Action.logState], none⟩ := by
  unfold run_shutdown_strategy
  rw [if_neg (fun hc => (not_le.mpr h1) hc.2), if_neg (fun hc => (not_le.mpr h2) hc.2),
    if_neg (fun hc => (not_le.mpr h3) hc.2), if_neg (fun hc => (not_le.mpr h4) hc.2)]

theorem strategy_state_cases (eff : Effects) (now : ℤ) (s : TrackerState) :
    (run_shutdown_strategy eff now s).state = s ∨
    (run_shutdown_strategy eff now s).state = reset_tracking now := by
  unfold run_shutdown_strategy
  split_ifs <;> first | exact sp_state_cases eff now _ s | exact Or.inl rfl

theorem strategy_count_le (eff : Effects) (now : ℤ) (s : TrackerState) :
    countActuator (run_shutdown_strategy eff now s).actions ≤ 1 := by
  unfold run_shutdown_strategy
  split_ifs <;> simp [countActuator] <;> exact sp_count_le eff now _ s

theorem strategy_log_cases (eff : Effects) (now : ℤ) (s : TrackerState) (r : String)
    (h : Action.logShutdown r ∈ (run_shutdown_strategy eff now s).actions) :
    (r = "bed_temp<40.0" ∧ s.bed_temp < BED_THRESHOLD_TEMP) ∨
    (r = "bed_target_temp=0" ∧ s.bed_target_temp = some 0) ∨
    (r = "nozzle_target_temp=0" ∧ s.nozzle_target_temp = some 0) ∨
    (r = "IDLE state" ∧ s.print_stage = some "IDLE") := by
  unfold run_shutdown_strategy at h
  split_ifs at h with h1 h2 h3 h4
  · simp only [List.mem_cons] at h
    rcases h with h | h
    · simp at h
    · exact Or.inl ⟨sp_log_reason _ _ _ _ _ h, h1.1⟩
  · simp only [List.mem_cons] at h
    rcases h with h | h
    · simp at h
    · exact Or.inr (Or.inl ⟨sp_log_reason _ _ _ _ _ h, h2.1⟩)
  · simp only [List.mem_cons] at h
    rcases h with h | h
    · simp at h
    · exact Or.inr (Or.inr (Or.inl ⟨sp_log_reason _ _ _ _ _ h, h3.1⟩))
  · simp only [List.mem_cons] at h
    rcases h with h | h
    · simp at h
    · exact Or.inr (Or.inr (Or.inr ⟨sp_log_reason _ _ _ _ _ h, h4.1⟩))
  · simp at h

theorem strategy_state_of_actuator (eff : Effects) (now : ℤ) (s : TrackerState)
    (h : Action.actuatorCall ∈ (run_shutdown_strategy eff now s).actions) :
    (run_shutdown_strategy eff now s).state = reset_tracking now := by
  unfold run_shutdown_strategy at *
  split_ifs at * <;>
    first
    | (simp only [List.mem_cons] at h
       rcases h with h | h
       · simp at h
       · exact sp_state_of_actuator _ _ _ _ h)
    | simp at h

theorem strategy_fires_bed (eff : Effects) (now : ℤ) (s : TrackerState)
    (hb : s.bed_temp < BED_THRESHOLD_TEMP)
    (ht : now - s.threshold_start_bed ≥ SHUTDOWN_DELAY_SECONDS)
    (hc : ¬ s.nozzle_temp > NOZZLE_COOL_TEMP) :
    Action.actuatorCall ∈ (run_shutdown_strategy eff now s).actions := by
  unfold run_shutdown_strategy
  rw [if_pos ⟨hb, ht⟩]
  simp only [List.mem_cons]
  exact Or.inr (sp_actuator_mem eff now _ s hc)

theorem strategy_fires_bt (eff : Effects) (now : ℤ) (s : TrackerState)
    (hb : s.bed_target_temp = some 0)
    (ht : now - s.threshold_start_bed_target ≥ SHUTDOWN_DELAY_SECONDS)
    (hc : ¬ s.nozzle_temp > NOZZLE_COOL_TEMP) :
    Action.actuatorCall ∈ (run_shutdown_strategy eff now s).actions := by
  unfold run_shutdown_strategy
  by_cases h1 : s.bed_temp < BED_THRESHOLD_TEMP ∧
      now - s.threshold_start_bed ≥ SHUTDOWN_DELAY_SECONDS
  · rw [if_pos h1]
    simp only [List.mem_cons]
    exact Or.inr (sp_actuator_mem eff now _ s hc)
  · rw [if_neg h1, if_pos ⟨hb, ht⟩]
    simp only [List.mem_cons]
    exact Or.inr (sp_actuator_mem eff now _ s hc)

theorem on_message_err_none (eff : Effects) (t : ℤ) (p : PrinterStatus) (s : TrackerState) :
    (on_message eff t p s).err = none := by
  unfold on_message
  dsimp only
  split <;> rfl

theorem on_message_state (eff : Effects) (t : ℤ) (p : PrinterStatus) (s : TrackerState) :
    (on_message eff t p s).state = (run_shutdown_strategy eff t (update t p s)).state := by
  unfold on_message
  dsimp only
  split <;> rfl

theorem on_message_count (eff : Effects) (t : ℤ) (p : PrinterStatus) (s : TrackerState) :
    countActuator (on_message eff t p s).actions =
    countActuator (run_shutdown_strategy eff t (update t p s)).actions := by
  unfold on_message
  dsimp only
  split
  · rw [countActuator_append]
    simp [countActuator]
  · rfl

theorem on_message_mem (eff : Effects) (t : ℤ) (p : PrinterStatus) (s : TrackerState)
    (a : Action) (ha : ∀ e, ¬ a = Action.logError e) :
    (a ∈ (on_message eff t p s).actions ↔
      a ∈ (run_shutdown_strategy eff t (update t p s)).actions) := by
  unfold on_message
  dsimp only
  split
  · simp only [List.mem_append, List.mem_singleton]
    constructor
    · rintro (h | h)
      · exact h
      · exact absurd h (ha _)
    · exact Or.inl
  · exact Iff.rfl

theorem on_message_no_fire (eff : Effects) (t : ℤ) (p : PrinterStatus) (s : TrackerState)
    (h1 : t - (update t p s).threshold_start_bed < SHUTDOWN_DELAY_SECONDS)
    (h2 : t - (update t p s).threshold_start_bed_target < SHUTDOWN_DELAY_SECONDS)
    (h3 : t - (update t p s).threshold_start_nozzle_target < SHUTDOWN_DELAY_SECONDS)
    (h4 : t - (update t p s).threshold_since_idle < SHUTDOWN_DELAY_SECONDS) :
    on_message eff t p s = ⟨update t p s, [Action.logState], none⟩ := by
  unfold on_message
  rw [strategy_no_fire eff t (update t p s) h1 h2 h3 h4]

/-! Trace-level invariants. -/

theorem clocksAtLeast_update (c now : ℤ) (p : PrinterStatus) (s : TrackerState)
    (h : clocksAtLeast c s) (hn : c ≤ now) : clocksAtLeast c (update now p s) := by
  obtain ⟨hi, hb, hbt, hnt⟩ := h
  refine ⟨?_, ?_, ?_, ?_⟩
  · rcases update_cIdle_cases now p s with h2 | h2 <;> rw [h2] <;> assumption
  · rcases update_cBed_cases now p s with h2 | h2 <;> rw [h2] <;> assumption
  · rcases update_cBT_cases now p s with h2 | h2 <;> rw [h2] <;> assumption
  · rcases update_cNT_cases now p s with h2 | h2 <;> rw [h2] <;> assumption

theorem clocksAtLeast_reset (now : ℤ) : clocksAtLeast now (reset_tracking now) :=
  ⟨le_refl now, le_refl now, le_refl now, le_refl now⟩

theorem on_message_no_fire_of_clocks (eff : Effects) (c t : ℤ) (p : PrinterStatus)
    (s : TrackerState) (h : clocksAtLeast c s) (hn : c ≤ t)
    (hlt : t - c < SHUTDOWN_DELAY_SECONDS) :
    on_message eff t p s = ⟨update t p s, [Action.logState], none⟩ := by
  obtain ⟨hi, hb, hbt, hnt⟩ := clocksAtLeast_update c t p s h hn
  exact on_message_no_fire eff t p s
    (lt_of_le_of_lt (by linarith) hlt) (lt_of_le_of_lt (by linarith) hlt)
    (lt_of_le_of_lt (by linarith) hlt) (lt_of_le_of_lt (by linarith) hlt)

theorem trace_no_fire (eff : Effects) (c : ℤ) :
    ∀ (tr : List (ℤ × PrinterStatus)) (s : TrackerState), clocksAtLeast c s →
      (∀ x ∈ tr, c ≤ x.1 ∧ x.1 - c < SHUTDOWN_DELAY_SECONDS) →
      countActuator (runTrace eff s tr).2 = 0 := by
  intro tr
  induction tr with
  | nil => intro s _ _; rfl
  | cons x rest ih =>
      intro s hs hx
      obtain ⟨t, p⟩ := x
      obtain ⟨h1, h2⟩ := hx (t, p) (List.mem_cons_self _ _)
      have hom := on_message_no_fire_of_clocks eff c t p s hs h1 h2
      show countActuator ((on_message eff t p s).actions ++
        (runTrace eff (on_message eff t p s).state rest).2) = 0
      rw [hom, countActuator_append]
      have hrest : countActuator (runTrace eff (update t p s) rest).2 = 0 :=
        ih (update t p s) (clocksAtLeast_update c t p s hs h1)
          (fun y hy => hx y (List.mem_cons_of_mem _ hy))
      simp [countActuator, hrest]
theorem update_bt_none (now : ℤ) (p : PrinterStatus) (s : TrackerState)
    (hs : s.bed_target_temp = none) (hp : p.bed_target_temp = none) :
    (update now p s).bed_target_temp = none := by
  rw [update_bt, hp, mergeField_none]
  rcases applyStalenessReset_cases now s with h | h <;> rw [h]
  · exact hs
  · rfl

theorem update_nt_none (now : ℤ) (p : PrinterStatus) (s : TrackerState)
    (hs : s.nozzle_target_temp = none) (hp : p.nozzle_target_temp = none) :
    (update now p s).nozzle_target_temp = none := by
  rw [update_nt, hp, mergeField_none]
  rcases applyStalenessReset_cases now s with h | h <;> rw [h]
  · exact hs
  · rfl

theorem on_message_state_cases (eff : Effects) (t : ℤ) (p : PrinterStatus)
    (s : TrackerState) :
    (on_message eff t p s).state = update t p s ∨
    (on_message eff t p s).state = reset_tracking t := by
  rw [on_message_state]
  exact strategy_state_cases eff t (update t p s)

theorem sp_actions_eq_of_cold (eff : Effects) (now : ℤ) (reason : String)
    (s1 s2 : TrackerState) (h1 : ¬ s1.nozzle_temp > NOZZLE_COOL_TEMP)
    (h2 : ¬ s2.nozzle_temp > NOZZLE_COOL_TEMP) :
    (shutdown_printer eff now reason s1).actions =
    (shutdown_printer eff now reason s2).actions := by
  unfold shutdown_printer
  rw [if_neg h1, if_neg h2]

/-! The claims. -/

/-- Claim C9: a failure raised during the shutdown action or the notification
send never propagates out of the per-arrival entry point: whatever error the
actuator or mailer raises, `on_message` returns normally (its error component
is always `none`), so the engine does not terminate. -/
theorem c9_no_propagation (eff : Effects) (t : ℤ) (p : PrinterStatus) (s : TrackerState) :
    (on_message eff t p s).err = none := by
  unfold on_message
  dsimp only
  split <;> rfl

/-- Claim C10: when the bed shutdown condition is met but the tracked nozzle
current temperature exceeds 180, `shutdown_printer` returns right after
logging — no actuator call, no notification, no reset — and
`run_shutdown_strategy` leaves the state unchanged, so the attempt is
re-evaluated at the next arrival. -/
theorem c10_hot_nozzle (eff : Effects) (now : ℤ) (reason : String) (s : TrackerState)
    (hot : s.nozzle_temp > NOZZLE_COOL_TEMP)
    (hb : s.bed_temp < BED_THRESHOLD_TEMP)
    (ht : now - s.threshold_start_bed ≥ SHUTDOWN_DELAY_SECONDS) :
    shutdown_printer eff now reason s = ⟨s, [Action.logWait], none⟩ ∧
    run_shutdown_strategy eff now s = ⟨s, [Action.logState, Action.logWait], none⟩ := by
  refine ⟨sp_hot eff now reason s hot, ?_⟩
  unfold run_shutdown_strategy
  rw [if_pos ⟨hb, ht⟩, sp_hot eff now _ s hot]

/-- Claim C10 witness: the hot-nozzle idle state at time 910 satisfies the
hypotheses, and the shutdown attempt is deferred with the state unchanged. -/
theorem c10_witness :
    shutdown_printer noErr 910 "bed_temp<40.0" sIdleHot =
      ⟨sIdleHot, [Action.logWait], none⟩ ∧
    run_shutdown_strategy noErr 910 sIdleHot =
      ⟨sIdleHot, [Action.logState, Action.logWait], none⟩ :=
  c10_hot_nozzle noErr 910 "bed_temp<40.0" sIdleHot (by decide) (by decide) (by decide)

/-- Claim C7 counterexample: at a concrete firing state the coordinator logs,
then RESETS the tracking state, then calls the actuator, then notifies — the
reset is not the final step, contradicting the claimed order
(log, actuator, notify, reset). -/
theorem c7_counterexample :
    (run_shutdown_strategy noErr 910 sIdleCool).actions =
      [Action.logState, Action.logShutdown "bed_temp<40.0", Action.resetDone,
        Action.actuatorCall, Action.notifyCall "bed_temp<40.0"] ∧
    ¬ (run_shutdown_strategy noErr 910 sIdleCool).actions =
      [Action.logState, Action.logShutdown "bed_temp<40.0", Action.actuatorCall,
        Action.notifyCall "bed_temp<40.0", Action.resetDone] := by
  constructor
  · decide
  · decide

/-- Claim C7 amended: when a shutdown is triggered with the nozzle at or below
180, the coordinator logs the decision, resets the tracking state, and only
then calls the actuator (then notifies); the reset therefore happens
unconditionally before the actuator call, whatever its outcome. -/
theorem c7_amended (eff : Effects) (now : ℤ) (reason : String) (s : TrackerState)
    (hc : ¬ s.nozzle_temp > NOZZLE_COOL_TEMP) :
    (shutdown_printer eff now reason s).state = reset_tracking now ∧
    (shutdown_printer eff now reason s).actions.take 3 =
      [Action.logShutdown reason, Action.resetDone, Action.actuatorCall] := by
  refine ⟨sp_state_cold eff now reason s hc, ?_⟩
  unfold shutdown_printer
  cases hA : eff.actuatorErr <;> cases hN : eff.notifyErr <;> rw [if_neg hc] <;> rfl

/-- Claim C7 amended witness: concrete instance at the idle, cool state. -/
theorem c7_witness :
    (shutdown_printer noErr 910 "IDLE state" sIdleCool).state = reset_tracking 910 ∧
    (shutdown_printer noErr 910 "IDLE state" sIdleCool).actions.take 3 =
      [Action.logShutdown "IDLE state", Action.resetDone, Action.actuatorCall] :=
  c7_amended noErr 910 "IDLE state" sIdleCool (by decide)

/-- Claim C6: an arrival more than MAX_STATUS_INTERVAL after the previous one
makes `update` behave exactly as if run on a freshly reset state (aggregate
fields and all clocks reset before the merge); in particular a previously
merged print stage is unknown afterwards when the new partial omits it; and
`status_time` is stamped to the arrival time on every arrival, stale or not. -/
theorem c6_staleness (t : ℤ) (p : PrinterStatus) (s : TrackerState) :
    (t - s.status_time > MAX_STATUS_INTERVAL_SECONDS →
      update t p s = update t p (reset_tracking t)) ∧
    (t - s.status_time > MAX_STATUS_INTERVAL_SECONDS → p.print_stage = none →
      (update t p s).print_stage = none) ∧
    (update t p s).status_time = t := by
  have hfresh : ¬ (t - (reset_tracking t).status_time > MAX_STATUS_INTERVAL_SECONDS) := by
    show ¬ (t - t > MAX_STATUS_INTERVAL_SECONDS)
    rw [sub_self]
    norm_num [MAX_STATUS_INTERVAL_SECONDS]
  refine ⟨?_, ?_, update_time t p s⟩
  · intro h
    have hstale : applyStalenessReset t s = applyStalenessReset t (reset_tracking t) := by
      unfold applyStalenessReset
      rw [if_pos h, if_neg hfresh]
    unfold update
    rw [hstale]
  · intro h hp
    rw [update_stage, hp, mergeField_none]
    unfold applyStalenessReset
    rw [if_pos h]
    rfl

/-- Claim C6 witness: an arrival at 1001 after a previous arrival at 700
(301 seconds, beyond the 300-second staleness window) with an empty partial,
starting from a state whose print stage was known. -/
theorem c6_witness :
    update 1001 pEmpty sIdleCool = update 1001 pEmpty (reset_tracking 1001) ∧
    (update 1001 pEmpty sIdleCool).print_stage = none ∧
    (update 1001 pEmpty sIdleCool).status_time = 1001 :=
  ⟨(c6_staleness 1001 pEmpty sIdleCool).1 (by decide),
   (c6_staleness 1001 pEmpty sIdleCool).2.1 (by decide) rfl,
   (c6_staleness 1001 pEmpty sIdleCool).2.2⟩

/-- Claim C8: within one non-stale arrival, the merge never turns a present
aggregate field absent (the optional fields stay `some`), and merging a
partial with every field absent leaves all five telemetry fields unchanged. -/
theorem c8_merge_monotone (t : ℤ) (p : PrinterStatus) (s : TrackerState)
    (hfresh : ¬ t - s.status_time > MAX_STATUS_INTERVAL_SECONDS) :
    ((s.print_stage).isSome → ((update t p s).print_stage).isSome) ∧
    ((s.bed_target_temp).isSome → ((update t p s).bed_target_temp).isSome) ∧
    ((s.nozzle_target_temp).isSome → ((update t p s).nozzle_target_temp).isSome) ∧
    (p.print_stage = none ∧ p.bed_temp = none ∧ p.nozzle_temp = none ∧
      p.bed_target_temp = none ∧ p.nozzle_target_temp = none →
      (update t p s).print_stage = s.print_stage ∧
      (update t p s).bed_temp = s.bed_temp ∧
      (update t p s).nozzle_temp = s.nozzle_temp ∧
      (update t p s).bed_target_temp = s.bed_target_temp ∧
      (update t p s).nozzle_target_temp = s.nozzle_target_temp) := by
  have hs : applyStalenessReset t s = s := by
    unfold applyStalenessReset
    rw [if_neg hfresh]
  refine ⟨?_, ?_, ?_, ?_⟩
  · intro h
    rw [update_stage, hs]
    exact mergeField_isSome _ _ h
  · intro h
    rw [update_bt, hs]
    exact mergeField_isSome _ _ h
  · intro h
    rw [update_nt, hs]
    exact mergeField_isSome _ _ h
  · rintro ⟨h1, h2, h3, h4, h5⟩
    refine ⟨?_, ?_, ?_, ?_, ?_⟩
    · rw [update_stage, hs, h1, mergeField_none]
    · rw [update_bed, hs, h2]
      rfl
    · rw [update_nozzle, hs, h3]
      rfl
    · rw [update_bt, hs, h4, mergeField_none]
    · rw [update_nt, hs, h5, mergeField_none]

/-- Claim C8 witness: a fresh arrival at 800 with an all-absent partial on a
state with known stage and targets: everything is preserved. -/
theorem c8_witness :
    ((sIdleCool.print_stage).isSome ∧ ((update 800 pEmpty sIdleCool).print_stage).isSome) ∧
    ((update 800 pEmpty sIdleCool).print_stage = sIdleCool.print_stage ∧
      (update 800 pEmpty sIdleCool).bed_temp = sIdleCool.bed_temp ∧
      (update 800 pEmpty sIdleCool).nozzle_temp = sIdleCool.nozzle_temp ∧
      (update 800 pEmpty sIdleCool).bed_target_temp = sIdleCool.bed_target_temp ∧
      (update 800 pEmpty sIdleCool).nozzle_target_temp = sIdleCool.nozzle_target_temp) :=
  ⟨⟨by decide, (c8_merge_monotone 800 pEmpty sIdleCool (by decide)).1 (by decide)⟩,
   (c8_merge_monotone 800 pEmpty sIdleCool (by decide)).2.2.2
     ⟨rfl, rfl, rfl, rfl, rfl⟩⟩

/-- Claim C4 counterexample: a run in which every snapshot reports print stage
IDLE and nozzle temperature 90 (bed 45, both targets 50): the 90-degree nozzle
does not re-arm the idle countdown, and at 960 seconds the IDLE-stage shutdown
fires and the actuator is invoked — contradicting the claimed ACTIVE
classification for nozzle readings above 85. -/
theorem c4_counterexample :
    countActuator (runTrace noErr (reset_tracking 0)
      [(240, pIdle90), (480, pIdle90), (720, pIdle90), (960, pIdle90)]).2 = 1 ∧
    Action.logShutdown "IDLE state" ∈ (runTrace noErr (reset_tracking 0)
      [(240, pIdle90), (480, pIdle90), (720, pIdle90), (960, pIdle90)]).2 := by
  constructor
  · decide
  · decide

/-- Claim C4 amended: the engine has no nozzle high-temperature rule at 85;
two states that agree everywhere except the nozzle current temperature, both
at most 180, produce exactly the same shutdown decision and actions (nozzle
90 versus 80 makes no difference to the classification). -/
theorem c4_amended (eff : Effects) (now : ℤ) (s1 s2 : TrackerState)
    (hn1 : ¬ s1.nozzle_temp > NOZZLE_COOL_TEMP) (hn2 : ¬ s2.nozzle_temp > NOZZLE_COOL_TEMP)
    (heq : ∃ n, s2 = { s1 with nozzle_temp := n }) :
    (run_shutdown_strategy eff now s1).actions =
    (run_shutdown_strategy eff now s2).actions := by
  obtain ⟨n, rfl⟩ := heq
  unfold run_shutdown_strategy
  dsimp only
  split_ifs <;>
    first
    | rfl
    | (show Action.logState :: _ = Action.logState :: _
       rw [sp_actions_eq_of_cold eff now _ _ _ hn1 hn2])

/-- Claim C4 amended witness: the idle state with nozzle 90 and the same state
with nozzle 50 produce identical shutdown actions. -/
theorem c4_witness :
    (run_shutdown_strategy noErr 910 sIdle90).actions =
    (run_shutdown_strategy noErr 910 sIdleCool).actions :=
  c4_amended noErr 910 sIdle90 sIdleCool (by decide) (by decide) ⟨50, by decide⟩

/-- Claim C1 counterexample: every arrival reports print stage PRINTING (known
and outside IDLE, FINISH, FAILED), the bed is reported at 20 degrees, and
after 15 minutes the bed-temperature condition still invokes the shutdown —
an active print stage does not prevent the shutdown. -/
theorem c1_counterexample :
    stagesAlong noErr (reset_tracking 0)
      [(240, pPrinting), (480, pPrinting), (720, pPrinting), (960, pPrinting)] =
      [some "PRINTING", some "PRINTING", some "PRINTING", some "PRINTING"] ∧
    countActuator (runTrace noErr (reset_tracking 0)
      [(240, pPrinting), (480, pPrinting), (720, pPrinting), (960, pPrinting)]).2 = 1 := by
  constructor
  · decide
  · decide

/-- Claim C1 amended: when the merged print stage at every arrival is known
and not IDLE, FINISH or FAILED, the IDLE-stage condition never triggers the
shutdown routine (no shutdown with reason IDLE state is ever decided); the
bed-temperature and target-temperature conditions can still fire. -/
theorem c1_amended (eff : Effects) :
    ∀ (tr : List (ℤ × PrinterStatus)) (s : TrackerState),
      (∀ st ∈ stagesAlong eff s tr, ¬ st = none ∧ ¬ st = some "IDLE" ∧
        ¬ st = some "FINISH" ∧ ¬ st = some "FAILED") →
      ¬ Action.logShutdown "IDLE state" ∈ (runTrace eff s tr).2 := by
  intro tr
  induction tr with
  | nil =>
      intro s _ h
      cases h
  | cons x rest ih =>
      intro s hst hmem
      obtain ⟨t, p⟩ := x
      have hsplit : (runTrace eff s ((t, p) :: rest)).2 =
          (on_message eff t p s).actions ++
          (runTrace eff (on_message eff t p s).state rest).2 := rfl
      rw [hsplit, List.mem_append] at hmem
      rcases hmem with hmem | hmem
      · have h2 : Action.logShutdown "IDLE state" ∈
            (run_shutdown_strategy eff t (update t p s)).actions :=
          (on_message_mem eff t p s _ (by intro e; simp)).mp hmem
        have h3 := strategy_log_cases eff t (update t p s) _ h2
        have h4 := hst (update t p s).print_stage (List.mem_cons_self _ _)
        rcases h3 with ⟨hr, _⟩ | ⟨hr, _⟩ | ⟨hr, _⟩ | ⟨hr, hstage⟩
        · exact absurd hr (by decide)
        · exact absurd hr (by decide)
        · exact absurd hr (by decide)
        · exact absurd hstage h4.2.1
      · exact ih (on_message eff t p s).state
          (fun st hstm => hst st (List.mem_cons_of_mem _ hstm)) hmem

/-- Claim C1 amended witness: along the four PRINTING arrivals the stage
hypothesis holds and no IDLE-stage shutdown is decided. -/
theorem c1_witness :
    ¬ Action.logShutdown "IDLE state" ∈ (runTrace noErr (reset_tracking 0)
      [(240, pPrinting), (480, pPrinting), (720, pPrinting), (960, pPrinting)]).2 :=
  c1_amended noErr
    [(240, pPrinting), (480, pPrinting), (720, pPrinting), (960, pPrinting)]
    (reset_tracking 0) (by decide)

/-- Claim C3 counterexample: from a reset at time 0, four arrivals carrying no
field at all (in particular never a bed current temperature): at 960 seconds
the bed-temperature condition fires and the actuator is invoked — the
never-reported bed temperature counts as its reset default of 0 degrees. -/
theorem c3_counterexample :
    countActuator (runTrace noErr (reset_tracking 0)
      [(240, pEmpty), (480, pEmpty), (720, pEmpty), (960, pEmpty)]).2 = 1 ∧
    Action.logShutdown "bed_temp<40.0" ∈ (runTrace noErr (reset_tracking 0)
      [(240, pEmpty), (480, pEmpty), (720, pEmpty), (960, pEmpty)]).2 := by
  constructor
  · decide
  · decide

/-- Claim C3 amended: a never-reported TARGET temperature does not count
toward the shutdown decision — with no bed-target or nozzle-target report
since the last reset, the corresponding conditions never fire, however much
time passes; the bed CURRENT temperature, however, defaults to 0 on reset, so
with a cold-or-unreported bed the bed-temperature condition does fire once
its delay has elapsed (and the nozzle is at most 180). -/
theorem c3_amended (eff : Effects) :
    (∀ (tr : List (ℤ × PrinterStatus)) (s : TrackerState),
      s.bed_target_temp = none → s.nozzle_target_temp = none →
      (∀ x ∈ tr, (x.2).bed_target_temp = none ∧ (x.2).nozzle_target_temp = none) →
      ¬ Action.logShutdown "bed_target_temp=0" ∈ (runTrace eff s tr).2 ∧
      ¬ Action.logShutdown "nozzle_target_temp=0" ∈ (runTrace eff s tr).2) ∧
    (∀ (now : ℤ) (s : TrackerState), s.bed_temp = 0 →
      now - s.threshold_start_bed ≥ SHUTDOWN_DELAY_SECONDS →
      ¬ s.nozzle_temp > NOZZLE_COOL_TEMP →
      Action.actuatorCall ∈ (run_shutdown_strategy eff now s).actions) := by
  constructor
  · intro tr
    induction tr with
    | nil =>
        intro s _ _ _
        refine ⟨fun h => ?_, fun h => ?_⟩ <;> cases h
    | cons x rest ih =>
        intro s hbt hnt hx
        obtain ⟨t, p⟩ := x
        obtain ⟨hpbt, hpnt⟩ := hx (t, p) (List.mem_cons_self _ _)
        have hubt : (update t p s).bed_target_temp = none := update_bt_none t p s hbt hpbt
        have hunt : (update t p s).nozzle_target_temp = none := update_nt_none t p s hnt hpnt
        have hstate : ((on_message eff t p s).state).bed_target_temp = none ∧
            ((on_message eff t p s).state).nozzle_target_temp = none := by
          rcases on_message_state_cases eff t p s with h | h <;> rw [h]
          · exact ⟨hubt, hunt⟩
          · exact ⟨rfl, rfl⟩
        have hrest := ih (on_message eff t p s).state hstate.1 hstate.2
          (fun y hy => hx y (List.mem_cons_of_mem _ hy))
        have hsplit : (runTrace eff s ((t, p) :: rest)).2 =
            (on_message eff t p s).actions ++
            (runTrace eff (on_message eff t p s).state rest).2 := rfl
        constructor
        · rw [hsplit, List.mem_append]
          rintro (hmem | hmem)
          · have h2 := (on_message_mem eff t p s _ (by intro e; simp)).mp hmem
            rcases strategy_log_cases eff t (update t p s) _ h2 with
              ⟨hr, _⟩ | ⟨_, hv⟩ | ⟨hr, _⟩ | ⟨hr, _⟩
            · exact absurd hr (by decide)
            · rw [hubt] at hv
              cases hv
            · exact absurd hr (by decide)
            · exact absurd hr (by decide)
          · exact hrest.1 hmem
        · rw [hsplit, List.mem_append]
          rintro (hmem | hmem)
          · have h2 := (on_message_mem eff t p s _ (by intro e; simp)).mp hmem
            rcases strategy_log_cases eff t (update t p s) _ h2 with
              ⟨hr, _⟩ | ⟨hr, _⟩ | ⟨_, hv⟩ | ⟨hr, _⟩
            · exact absurd hr (by decide)
            · exact absurd hr (by decide)
            · rw [hunt] at hv
              cases hv
            · exact absurd hr (by decide)
          · exact hrest.2 hmem
  · intro now s hbed ht hc
    apply strategy_fires_bed eff now s _ ht hc
    rw [hbed]
    norm_num [BED_THRESHOLD_TEMP]

/-- Claim C3 amended witness: along four empty arrivals neither target
condition ever fires, while at 910 seconds past a reset the bed condition
does invoke the actuator. -/
theorem c3_witness :
    (¬ Action.logShutdown "bed_target_temp=0" ∈ (runTrace noErr (reset_tracking 0)
        [(240, pEmpty), (480, pEmpty), (720, pEmpty), (960, pEmpty)]).2 ∧
      ¬ Action.logShutdown "nozzle_target_temp=0" ∈ (runTrace noErr (reset_tracking 0)
        [(240, pEmpty), (480, pEmpty), (720, pEmpty), (960, pEmpty)]).2) ∧
    Action.actuatorCall ∈ (run_shutdown_strategy noErr 910 (reset_tracking 0)).actions :=
  ⟨(c3_amended noErr).1 [(240, pEmpty), (480, pEmpty), (720, pEmpty), (960, pEmpty)]
      (reset_tracking 0) rfl rfl (by decide),
   (c3_amended noErr).2 910 (reset_tracking 0) rfl (by decide) (by decide)⟩

/-- Claim C2 counterexample: six arrivals of an idle, cooling device whose
nozzle is tracked at 200 degrees; the last three arrivals (at 960, 961, 962)
are all past the idle threshold, yet NO actuator power-off occurs at all —
the shutdown is deferred by the 180-degree nozzle guard on every arrival, so
the burst performs zero invocations, not exactly one. -/
theorem c2_counterexample :
    countActuator (runTrace noErr (reset_tracking 0)
      [(240, pHotNozzle), (480, pHotNozzle), (720, pHotNozzle), (960, pHotNozzle),
        (961, pHotNozzle), (962, pHotNozzle)]).2 = 0 ∧
    Action.logWait ∈ (runTrace noErr (reset_tracking 0)
      [(240, pHotNozzle), (480, pHotNozzle), (720, pHotNozzle), (960, pHotNozzle),
        (961, pHotNozzle), (962, pHotNozzle)]).2 := by
  constructor
  · decide
  · decide

/-- Claim C2 amended: when an arrival does invoke the actuator, the tracking
state is reset at that arrival, and across any further burst of arrivals
within the following 15 minutes exactly one actuator invocation occurs in
total — a second shutdown cannot fire within the same episode.  (When the
nozzle guard defers the power-off, no invocation occurs at all.) -/
theorem c2_amended (eff : Effects) (s : TrackerState) (t : ℤ) (p : PrinterStatus)
    (rest : List (ℤ × PrinterStatus))
    (hfire : Action.actuatorCall ∈ (on_message eff t p s).actions)
    (hrest : ∀ x ∈ rest, t ≤ x.1 ∧ x.1 - t < SHUTDOWN_DELAY_SECONDS) :
    countActuator (runTrace eff s ((t, p) :: rest)).2 = 1 := by
  have hmem : Action.actuatorCall ∈ (run_shutdown_strategy eff t (update t p s)).actions :=
    (on_message_mem eff t p s _ (by intro e; simp)).mp hfire
  have hstate : (on_message eff t p s).state = reset_tracking t := by
    rw [on_message_state]
    exact strategy_state_of_actuator eff t (update t p s) hmem
  have hcount1 : countActuator (on_message eff t p s).actions = 1 := by
    rw [on_message_count]
    exact Nat.le_antisymm (strategy_count_le eff t (update t p s)) (countActuator_pos _ hmem)
  have hsplit : (runTrace eff s ((t, p) :: rest)).2 =
      (on_message eff t p s).actions ++
      (runTrace eff (on_message eff t p s).state rest).2 := rfl
  rw [hsplit, countActuator_append, hcount1, hstate,
    trace_no_fire eff t rest (reset_tracking t) (clocksAtLeast_reset t) hrest]

/-- Claim C2 amended witness: a firing arrival at 910 followed by a rapid
burst at 911 and 912 performs exactly one actuator invocation. -/
theorem c2_witness :
    countActuator (runTrace noErr sIdleCool
      [(910, pEmpty), (911, pEmpty), (912, pEmpty)]).2 = 1 :=
  c2_amended noErr sIdleCool 910 pEmpty [(911, pEmpty), (912, pEmpty)]
    (by decide) (by decide)

/-- Claim C5 counterexample: all four clocks stand at 0 (last activity at
time 0) and an arrival comes at 910, past the 900-second threshold, still
classified inactive (no clock is re-armed); yet no actuator power-off occurs,
because the tracked nozzle temperature (200) exceeds the 180-degree guard —
the shutdown does NOT fire at the first arrival at or after the threshold. -/
theorem c5_counterexample :
    clocks4 sIdleHot = (0, 0, 0, 0) ∧
    (910 : ℤ) - 0 ≥ SHUTDOWN_DELAY_SECONDS ∧
    clocks4 (update 910 pEmpty sIdleHot) = clocks4 sIdleHot ∧
    ¬ Action.actuatorCall ∈ (on_message noErr 910 pEmpty sIdleHot).actions := by
  refine ⟨by decide, by decide, by decide, by decide⟩

/-- Claim C5 amended: with every clock at t0 (the last moment of activity),
no arrival strictly less than 15 minutes after t0 invokes the actuator; and
an arrival at or after t0 plus 15 minutes does invoke it, provided the
arrival still classifies inactive (it re-arms no clock, which also rules out
a staleness reset) and the tracked nozzle temperature is at most 180. -/
theorem c5_amended (eff : Effects) (s : TrackerState) (t0 : ℤ)
    (hc : clocks4 s = (t0, t0, t0, t0)) :
    (∀ (t : ℤ) (p : PrinterStatus), t - t0 < SHUTDOWN_DELAY_SECONDS →
      ¬ Action.actuatorCall ∈ (on_message eff t p s).actions) ∧
    (∀ (t : ℤ) (p : PrinterStatus), t - t0 ≥ SHUTDOWN_DELAY_SECONDS →
      clocks4 (update t p s) = clocks4 s →
      ¬ (update t p s).nozzle_temp > NOZZLE_COOL_TEMP →
      Action.actuatorCall ∈ (on_message eff t p s).actions) := by
  obtain ⟨h1, h2, h3, h4⟩ : s.threshold_since_idle = t0 ∧ s.threshold_start_bed = t0 ∧
      s.threshold_start_bed_target = t0 ∧ s.threshold_start_nozzle_target = t0 := by
    simpa [clocks4, Prod.ext_iff] using hc
  constructor
  · intro t p hlt hmem
    have hb : t - (update t p s).threshold_start_bed < SHUTDOWN_DELAY_SECONDS := by
      rcases update_cBed_cases t p s with h | h <;> rw [h]
      · rw [h2]
        exact hlt
      · rw [sub_self]
        norm_num [SHUTDOWN_DELAY_SECONDS]
    have hbt : t - (update t p s).threshold_start_bed_target < SHUTDOWN_DELAY_SECONDS := by
      rcases update_cBT_cases t p s with h | h <;> rw [h]
      · rw [h3]
        exact hlt
      · rw [sub_self]
        norm_num [SHUTDOWN_DELAY_SECONDS]
    have hnt : t - (update t p s).threshold_start_nozzle_target < SHUTDOWN_DELAY_SECONDS := by
      rcases update_cNT_cases t p s with h | h <;> rw [h]
      · rw [h4]
        exact hlt
      · rw [sub_self]
        norm_num [SHUTDOWN_DELAY_SECONDS]
    have hi : t - (update t p s).threshold_since_idle < SHUTDOWN_DELAY_SECONDS := by
      rcases update_cIdle_cases t p s with h | h <;> rw [h]
      · rw [h1]
        exact hlt
      · rw [sub_self]
        norm_num [SHUTDOWN_DELAY_SECONDS]
    rw [on_message_no_fire eff t p s hb hbt hnt hi] at hmem
    simp at hmem
  · intro t p hge hclocks hcool
    have h900 : (900 : ℤ) ≤ t - t0 := by
      simpa [SHUTDOWN_DELAY_SECONDS] using hge
    obtain ⟨e1, e2, e3, e4⟩ :
        (update t p s).threshold_since_idle = s.threshold_since_idle ∧
        (update t p s).threshold_start_bed = s.threshold_start_bed ∧
        (update t p s).threshold_start_bed_target = s.threshold_start_bed_target ∧
        (update t p s).threshold_start_nozzle_target = s.threshold_start_nozzle_target := by
      simpa [clocks4, Prod.ext_iff] using hclocks
    have hbt0 : (update t p s).bed_target_temp = some 0 := by
      by_contra hne
      have harm := update_bt_clock_arm t p s hne
      have ht0 : t = t0 := by
        rw [← harm, e3, h3]
      omega
    apply (on_message_mem eff t p s _ (by intro e; simp)).mpr
    apply strategy_fires_bt eff t (update t p s) hbt0 _ hcool
    rw [e3, h3]
    exact hge

/-- Claim C5 amended witness: from the idle, cool state with all clocks at 0,
an empty arrival at 500 invokes nothing, and an empty arrival at 910 invokes
the actuator. -/
theorem c5_witness :
    ¬ Action.actuatorCall ∈ (on_message noErr 500 pEmpty sIdleCool).actions ∧
    Action.actuatorCall ∈ (on_message noErr 910 pEmpty sIdleCool).actions :=
  ⟨(c5_amended noErr sIdleCool 0 (by decide)).1 500 pEmpty (by decide),
   (c5_amended noErr sIdleCool 0 (by decide)).2 910 pEmpty (by decide) (by decide)
     (by decide)⟩
end BambuMonitor
